import Mathlib

/-!
Verification development for the AI_chat repository.

The repository is a Python request pipeline: an eight-node LangGraph workflow
(`src/AI_Model/src/workflow/nodes.py`, wired in `graph_builder.py`) behind a
FastAPI chat endpoint (`src/workflow_pipeline.py`), with a RAG decision
predicate in `src/AI_Model/src/rag/rag_pipline.py`.

The embedding below translates the workflow state dictionary into a record of
`Option` fields (a `none` field models an absent dictionary key), each node
function into a pure state transformer, and every external effect (vector
retrieval, completion provider, validator, log store, fine-tuning trigger,
wall clock) into data supplied by an `Env` record.  Four modules referenced by
`nodes.py` (`model_inference`, `reponse_validator`, `interaction_logger`,
`fine_tuner`) are not present in the repository snapshot; their behaviour is
modelled from the specification and each such definition is marked
`Modelled from the spec:`.  Python floats (times, cost, confidence) are
modelled as `Rat`; no claim depends on float rounding.

One consequence of the files that are present is load-bearing:
`rag_pipline.py` line 5 runs `from retriever import retrieve_context` at
module load, but `retriever.py` defines only the method
`PineconeRetriever.retrive_context` and no module-level `retrieve_context`,
so that import can never succeed.  Hence the guarded import at the top of
`nodes.py` (lines 17-22) always fails: `RAG_AVAILABLE` is `False` and the
name `should_use_rag` is unbound inside `nodes.py`, so `decision_router_node`
raises `NameError` at its call site on every request and always returns
through its `except` branch.  The pure predicate `should_use_rag` itself is
still embedded from `rag_pipline.py` and reasoned about directly.
-/

namespace AIChat

/-- Python whitespace characters: the set recognised by `str.strip()` and
`str.split()` (space, tab, newline, carriage return, vertical tab, form feed;
restricted to ASCII, which covers every string in this repository). -/
def isPyWs (c : Char) : Bool :=
  c == ' ' || c == '\t' || c == '\n' || c == '\r' ||
    c == Char.ofNat 11 || c == Char.ofNat 12

/-- Python `str.strip()` on a character list: drop leading and trailing
whitespace. -/
def stripChars (l : List Char) : List Char :=
  ((l.dropWhile isPyWs).reverse.dropWhile isPyWs).reverse

/-- Python `s.strip()`. -/
def pyStrip (s : String) : String :=
  String.mk (stripChars s.toList)

/-- Python `str.lower()` on one character (ASCII range; every query character
the repository's literals compare against is ASCII). -/
def lowerChar (c : Char) : Char :=
  if 'A' ≤ c && c ≤ 'Z' then Char.ofNat (c.toNat + 32) else c

/-- Python `s.lower()`. -/
def pyLower (s : String) : String :=
  String.mk (s.toList.map lowerChar)

/-- Python `s.startswith(p)` for a single candidate. -/
def pyStartsWith (p s : String) : Bool :=
  decide (p.toList <+: s.toList)

/-- Python substring containment `needle in s`. -/
def pyContains (needle s : String) : Bool :=
  decide (needle.toList <:+: s.toList)

/-- Python slice `s[:n]`. -/
def pySlice (n : Nat) (s : String) : String :=
  String.mk (s.toList.take n)

/-- Python `s.split()` with no argument: maximal runs of non-whitespace
characters (empty chunks between consecutive separators are discarded). -/
def pySplit (s : String) : List String :=
  ((s.toList.splitOnP isPyWs).filter (· ≠ [])).map String.mk

/-- The tuple `NON_RAG_PREFIXES` of `should_use_rag`
(src/AI_Model/src/rag/rag_pipline.py lines 16-23). -/
def NON_RAG_PREFIXES : List String :=
  ["what is", "who is", "define", "meaning of", "introduction to", "explain"]

/-- The tuple `MEDICAL_KEYWORDS` of `should_use_rag`
(src/AI_Model/src/rag/rag_pipline.py lines 25-36). -/
def MEDICAL_KEYWORDS : List String :=
  ["symptom", "disease", "treatment", "fever", "vomiting", "diarrhea",
    "skin", "infection", "breathing", "poison"]

/-- `should_use_rag` (src/AI_Model/src/rag/rag_pipline.py lines 15-44):
skip RAG for definitional prefixes, use RAG when a medical keyword occurs,
otherwise skip. -/
def should_use_rag (query : String) : Bool :=
  if NON_RAG_PREFIXES.any (fun p => pyStartsWith p query) then false
  else if MEDICAL_KEYWORDS.any (fun w => pyContains w query) then true
  else false

/-- The RAG predicate as claim C2 states it, written from the specification's
words: false on an excluded prefix regardless of keywords, true on a medical
keyword otherwise, false in all remaining cases. -/
def should_use_rag_claim (query : String) : Bool :=
  !(NON_RAG_PREFIXES.any (fun p => pyStartsWith p query)) &&
    (MEDICAL_KEYWORDS.any (fun w => pyContains w query))

/-- One retrieved passage as produced by `retrieve_context`
(src/AI_Model/src/rag/retriever.py lines 23-38): best-effort text, optional
similarity score, source label. -/
structure RetrievedDoc where
  text : String
  score : Option Rat
  source : String
deriving DecidableEq

/-- The workflow state dictionary (src/AI_Model/src/workflow/state_definition.py,
accessed as a plain dict by every node in nodes.py).  A `none` field models a
key that is absent from the dictionary; `state.get(k, d)` is `(field).getD d`.
Python floats are modelled as `Rat`. -/
structure WFState where
  query : Option String := none
  user_id : Option String := none
  session_id : Option String := none
  use_rag : Option Bool := none
  model_to_use : Option String := none
  strategy : Option String := none
  retrieved_docs : Option (List RetrievedDoc) := none
  rag_time : Option Rat := none
  context : Option String := none
  prompt_template : Option String := none
  final_prompt : Option String := none
  raw_response : Option String := none
  response_tokens : Option Nat := none
  cost : Option Rat := none
  validated_response : Option String := none
  citations : Option (List String) := none
  confidence_score : Option Rat := none
  start_time : Option Rat := none
  end_time : Option Rat := none
  inference_time : Option Rat := none
  total_time : Option Rat := none
  error : Option (List String) := none
  fallback_used : Option Bool := none
  final_output : Option String := none
deriving DecidableEq

/-- One request's external world: clock readings and the outcome of every
provider round trip the eight nodes can make.  `Except.error m` models a
Python exception whose `str(e)` is `m`.  `ragAvailable` models the
`RAG_AVAILABLE` flag of nodes.py lines 17-22; in this snapshot it is false on
every run (the guarded import always fails, see the module comment), but it
is kept as a field so node 3's guard can be stated and exercised. -/
structure Env where
  now : Rat
  ragAvailable : Bool
  retrieval : Except String (List RetrievedDoc)
  ragTime : Rat
  completion : Except String (String × Nat × Rat)
  infTime : Rat
  validatorResult : Except String String
  confidence : Rat
  logOutcome : Except String Unit
  endTime : Rat
  ftOutcome : Except String Unit

/-- The metadata initialisation shared by both surviving paths of node 1
(src/AI_Model/src/workflow/nodes.py lines 62-65): record the start time,
default the error list to `[]` when the key is absent or `None`, and clear
the fallback flag. -/
def finishInput (now : Rat) (s : WFState) : WFState :=
  { s with start_time := some now,
           error := some (s.error.getD []),
           fallback_used := some false }

/-- Node 1, `input_processing_node` (src/AI_Model/src/workflow/nodes.py lines
30-76).  Empty or whitespace-only query: record `["Invalid Query"]` and set
strategy `"error"`, returning early.  Over-long query: set the error list to
`["Query too long"]` and truncate to the first 2000 characters.  Then the
metadata initialisation of `finishInput`.  (The Python `not query` disjunct
is subsumed by `query.strip() == ""`; the body raises no exception, so the
outer `except` branch is unreachable.) -/
def input_processing_node (now : Rat) (s : WFState) : WFState :=
  if pyStrip (s.query.getD "") = "" then
    { s with error := some ["Invalid Query"], strategy := some "error" }
  else
    finishInput now
      (if (s.query.getD "").length > 2000 then
        { s with error := some ["Query too long"],
                 query := some (pySlice 2000 (s.query.getD "")) }
       else s)

/-- Node 2, `decision_router_node` (src/AI_Model/src/workflow/nodes.py lines
83-127).  The try-body lowercases the query and would evaluate
`should_use_rag`, but that name is unbound in `nodes.py` (the guarded RAG
importing always fails against the present `retriever.py`, see the module
comment), so the call at line 99 raises `NameError` on every request before
any state write, and the `except` branch (lines 123-127) runs: it replaces
the error list with the rendered router error and sets strategy `"error"`;
`use_rag` and `model_to_use` are never written. -/
def decision_router_node (s : WFState) : WFState :=
  { s with error := some ["Router error: name 'should_use_rag' is not defined"],
           strategy := some "error" }

/-- Node 3, `rag_retrieval_node` (src/AI_Model/src/workflow/nodes.py lines
134-190).  Returns the updated state together with the number of vector-store
fetches performed (0 or 1).  When the retriever raises and the error key is
absent, the inner `state["error"].append` itself raises before
context/documents are cleared, and the outer handler replaces the error list
(the Python message interpolates the repr of the KeyError). -/
def rag_retrieval_node (env : Env) (s : WFState) : WFState × Nat :=
  if !(s.use_rag.getD false) then
    ({ s with context := some "", retrieved_docs := some [] }, 0)
  else if !env.ragAvailable then
    ({ s with context := some "", retrieved_docs := some [] }, 0)
  else
    match env.retrieval with
    | .ok docs =>
        ({ s with
             retrieved_docs := some (if docs.isEmpty then [] else docs),
             context := some (if docs.isEmpty then ""
               else String.intercalate "\n---\n" (docs.map (·.text))),
             rag_time := some env.ragTime }, 1)
    | .error m =>
        match s.error with
        | some es =>
            ({ s with error := some (es ++ ["RAG error: " ++ m]),
                      context := some "", retrieved_docs := some [],
                      use_rag := some false }, 1)
        | none =>
            ({ s with error := some ["RAG retrieval error: KeyError"] }, 1)

/-- Node 4, `engineer_prompt_node` (src/AI_Model/src/workflow/nodes.py lines
197-234).  Pure string templating; a non-empty context selects the
context-bearing template.  The body raises no exception, so the `except`
branch is unreachable. -/
def engineer_prompt_node (s : WFState) : WFState :=
  let query := s.query.getD ""
  let context := s.context.getD ""
  let prompt :=
    if context ≠ "" then
      "Based on the following context, answer the user's query:\n\nContext:\n"
        ++ context ++ "\n\nUser Query: " ++ query
        ++ "\n\nPlease provide a comprehensive and accurate answer."
    else
      "Answer the following query:\n\nUser Query: " ++ query
        ++ "\n\nPlease provide a comprehensive and accurate answer."
  { s with final_prompt := some prompt, prompt_template := some "default" }

/-- Modelled from the spec: `Node5ModelInference.run_inference`
(AI_Model.src.models.model_inference is absent from the snapshot; spec §4.4).
One completion call with the built prompt and selected model, recording the
response text, token count, cost and wall-clock duration; a provider failure
surfaces as an exception to the caller. -/
def run_inference (env : Env) (s : WFState) : Except String WFState :=
  match env.completion with
  | .ok res =>
      .ok { s with raw_response := some res.1, response_tokens := some res.2.1,
                   cost := some res.2.2, inference_time := some env.infTime }
  | .error m => .error m

/-- The f-string of node 5's fallback response
(src/AI_Model/src/workflow/nodes.py line 260). -/
def inference_fallback_text (q m : String) : String :=
  "I received your query: " ++ q
    ++ ". However, I encountered an error processing it: " ++ m

/-- Node 5, `run_model_inference_node` (src/AI_Model/src/workflow/nodes.py
lines 241-266).  On failure the `except` branch substitutes a fallback text
echoing the query and the error, sets `response_tokens` to the whitespace
word count of that fallback text, zeroes the cost, and appends the error
(when the error key is absent the append raises and is swallowed).  The
`raise CustomException` is swallowed by `return state` in `finally`.  The
second component counts provider attempts: exactly one, never retried. -/
def run_model_inference_node (env : Env) (s : WFState) : WFState × Nat :=
  match run_inference env s with
  | .ok r => (r, 1)
  | .error m =>
      ({ s with raw_response := some (inference_fallback_text (s.query.getD "No query") m),
                response_tokens := some (pySplit (inference_fallback_text (s.query.getD "No query") m)).length,
                cost := some 0,
                error := match s.error with
                  | some es => some (es ++ ["Model inference error: " ++ m])
                  | none => none }, 1)

/-- Modelled from the spec: `Node6ResponseValidator.validate_response`
(AI_Model.src.utils.reponse_validator is absent from the snapshot; spec §4.5).
Produces a validated response string from the raw completion, citations from
the retrieved documents' sources when retrieval was used, and a confidence
score; an internal failure surfaces as an exception to the caller. -/
def validate_response_spec (env : Env) (s : WFState) : Except String WFState :=
  match env.validatorResult with
  | .ok t =>
      .ok { s with validated_response := some t,
                   citations := some (if s.use_rag.getD false
                     then (s.retrieved_docs.getD []).map (·.source) else []),
                   confidence_score := some env.confidence }
  | .error m => .error m

/-- Node 6, `validate_response_node` (src/AI_Model/src/workflow/nodes.py lines
273-296).  On failure the raw response is used as the validated response with
empty citations and confidence 0.5; the `raise CustomException` is swallowed
by `return state` in `finally`. -/
def validate_response_node (env : Env) (s : WFState) : WFState :=
  match validate_response_spec env s with
  | .ok r => r
  | .error _ =>
      { s with validated_response := some (s.raw_response.getD ""),
               citations := some [],
               confidence_score := some (1 / 2 : Rat) }

/-- Modelled from the spec: `Node7InteractionLogger.log_interaction`
(AI_Model.src.logging.interaction_logger is absent from the snapshot; spec
§4.6).  Persists one interaction record (the durable row is outside the state
and not modelled) and records end time and total time. -/
def log_interaction_spec (env : Env) (s : WFState) : WFState :=
  { s with end_time := some env.endTime,
           total_time := some (env.endTime - s.start_time.getD env.endTime) }

/-- Node 7, `log_interaction_node` (src/AI_Model/src/workflow/nodes.py lines
303-324).  A logging failure still records end time and total time into the
in-memory state and returns it. -/
def log_interaction_node (env : Env) (s : WFState) : WFState :=
  match env.logOutcome with
  | .ok _ => log_interaction_spec env s
  | .error _ =>
      { s with end_time := some env.endTime,
               total_time := some (env.endTime - s.start_time.getD env.endTime) }

/-- Modelled from the spec: `check_fine_tuning_trigger`
(AI_Model.src.fine_tuning.fine_tuner is absent from the snapshot; spec §4.7).
A pass-through that always produces `final_output`, falling back to the
validated response or the raw response; the job-scheduling side effect is
outside the state and not modelled. -/
def check_fine_tuning_trigger_spec (s : WFState) : WFState :=
  { s with final_output := some (s.validated_response.getD (s.raw_response.getD "")) }

/-- Node 8, `check_fine_tuning_trigger_node` (src/AI_Model/src/workflow/nodes.py
lines 331-349).  On failure the fallback sets `final_output` from
`state.get("validated_response", state.get("raw_response", ""))`. -/
def check_fine_tuning_trigger_node (env : Env) (s : WFState) : WFState :=
  match env.ftOutcome with
  | .ok _ => check_fine_tuning_trigger_spec s
  | .error _ =>
      { s with final_output := some (s.validated_response.getD (s.raw_response.getD "")) }

/-- The conditional edge out of `decision_router`
(src/AI_Model/src/workflow/graph_builder.py lines 36-43):
`lambda state: state.use_rag` routes to `rag_retrieval` on true and directly
to `prompt_engineering` on false.  The router never writes this field in this
snapshot (its except branch runs on every request), so the value is the one
carried from the initial state; pipeline-built states always set
`use_rag = True`, making the `getD` default unobservable for HTTP
requests. -/
def routeUseRag (s : WFState) : Bool :=
  s.use_rag.getD false

/-- The linear suffix of the graph after the conditional fork:
prompt_engineering → model_inference → response_validation → logging →
fine_tuning_check (src/AI_Model/src/workflow/graph_builder.py lines 45-50).
Second component: number of completion-provider attempts. -/
def tailStages (env : Env) (s : WFState) : WFState × Nat :=
  let s4 := engineer_prompt_node s
  let inf := run_model_inference_node env s4
  let s6 := validate_response_node env inf.1
  let s7 := log_interaction_node env s6
  (check_fine_tuning_trigger_node env s7, inf.2)

/-- One invocation of the compiled graph of `build_complete_workflow`
(src/AI_Model/src/workflow/graph_builder.py lines 17-52): START →
input_processing → decision_router → [use_rag ? rag_retrieval : skip] → the
linear tail → END.  Returns the final state, the number of vector-store
fetches, and the number of completion-provider attempts. -/
def runCompleteWorkflow (env : Env) (s0 : WFState) : WFState × Nat × Nat :=
  let s2 := decision_router_node (input_processing_node env.now s0)
  let rag := if routeUseRag s2 then rag_retrieval_node env s2 else (s2, 0)
  ((tailStages env rag.1).1, rag.2, (tailStages env rag.1).2)

/-- `ChatbotPipeline._extract_response` (src/workflow_pipeline.py lines
78-104): the only key searched is `"validated_response"`; a present, truthy
value is returned (in the state model it is a plain string, so the
list-of-messages branch does not apply), otherwise the literal fallback
`"No response generated"`. -/
def extract_response (s : WFState) : String :=
  match s.validated_response with
  | some v => if v ≠ "" then v else "No response generated"
  | none => "No response generated"

/-- The initial state built by `ChatbotPipeline.process_message`
(src/workflow_pipeline.py lines 49-55): the query and `use_rag = True`; the
`conversation_history`, `messages` and `current_step` keys are read by no
node and are not part of the state model. -/
def initialState (input : String) : WFState :=
  { query := some input, use_rag := some true }

/-- `ChatbotPipeline.process_message` (src/workflow_pipeline.py lines 38-76):
invoke the workflow on the initial state and extract the reply. -/
def process_message (env : Env) (input : String) : String :=
  extract_response (runCompleteWorkflow env (initialState input)).1

/-- Outcome of one request to the `/api/chat` endpoint.  `validationError` is
the framework's rejection of the request body before the handler runs
(pydantic `Field(min_length=1, max_length=5000)` on `ChatRequest.message`,
src/workflow_pipeline.py lines 13-15, reported by FastAPI as 422);
`httpError` is an `HTTPException` raised inside the handler. -/
inductive ChatOutcome where
  | validationError (status : Nat)
  | httpError (status : Nat) (detail : String)
  | reply (text : String)
deriving DecidableEq

/-- The `chat` endpoint (src/workflow_pipeline.py lines 157-209) for a request
whose body parsed as `{"message": message}`.  `workflowReady` models whether
the startup hook left the global `workflow`/`pipeline` non-None.  The second
component records whether `pipeline.process_message` was invoked. -/
def chat (env : Env) (workflowReady : Bool) (message : String) : ChatOutcome × Bool :=
  if message.length < 1 ∨ message.length > 5000 then
    (.validationError 422, false)
  else if pyStrip message = "" then
    (.httpError 400 "Please enter a message", false)
  else if !workflowReady then
    (.httpError 500 "Workflow not initialized. Check server logs.", false)
  else
    (.reply (process_message env (pyStrip message)), true)

/-- A benign environment for concrete runs: RAG importable, every provider
call succeeds. -/
def env0 : Env :=
  { now := 0, ragAvailable := true, retrieval := .ok [], ragTime := 0,
    completion := .ok ("ok", 2, 0), infTime := 0,
    validatorResult := .ok "fine", confidence := 1,
    logOutcome := .ok (), endTime := 1, ftOutcome := .ok () }

/-- The environment of real runs of this snapshot: the RAG import has
failed, so `RAG_AVAILABLE` is false; every other provider call succeeds. -/
def envSnap : Env :=
  { env0 with ragAvailable := false }

/-- Environment whose completion provider fails. -/
def env6 : Env :=
  { env0 with completion := .error "boom" }

/-- Environment whose validator succeeds with an empty validated response. -/
def env7 : Env :=
  { env0 with completion := .ok ("ans", 3, 0), validatorResult := .ok "" }

/-- A 2001-character query, one over the truncation limit. -/
def q2001 : String :=
  String.mk (List.replicate 2001 'x')

/-- A state carrying the 2001-character query. -/
def s2001 : WFState :=
  { query := some q2001 }

/-- Two concrete retrieved passages. -/
def docsW : List RetrievedDoc :=
  [{ text := "alpha", score := some 1, source := "s1" },
   { text := "beta", score := none, source := "s2" }]

/-- Environment whose retrieval returns the two concrete passages. -/
def envC5 : Env :=
  { env0 with retrieval := .ok docsW }

/-- A mid-workflow state for exercising node 3 and node 5 directly. -/
def sC5 : WFState :=
  { query := some "hi", use_rag := some true, error := some [] }

/-!  Helper lemmas: whitespace-only strings, case lowering, and field
preservation along the linear tail of the graph. -/

theorem stripChars_eq_nil {l : List Char} (h : stripChars l = []) :
    ∀ c ∈ l, isPyWs c = true := by
  unfold stripChars at h
  rw [List.reverse_eq_nil_iff, List.dropWhile_eq_nil_iff] at h
  intro c hc
  rw [← List.takeWhile_append_dropWhile isPyWs l] at hc
  rcases List.mem_append.mp hc with h1 | h2
  · exact List.mem_takeWhile_imp h1
  · exact h c (List.mem_reverse.mpr h2)

theorem pyStrip_eq_empty {s : String} (h : pyStrip s = "") :
    ∀ c ∈ s.toList, isPyWs c = true := by
  have hd : stripChars s.toList = [] := congrArg String.data h
  exact stripChars_eq_nil hd

theorem ws_no_startsWith {q w : String} (hws : ∀ c ∈ q.toList, isPyWs c = true)
    (c : Char) (hcw : c ∈ w.toList) (hc : isPyWs c = false) :
    pyStartsWith w q = false := by
  by_contra hb
  rw [Bool.not_eq_false] at hb
  have hpre : w.toList <+: q.toList := of_decide_eq_true hb
  have ht := hws c (hpre.subset hcw)
  rw [ht] at hc
  simp at hc

theorem ws_no_contains {q w : String} (hws : ∀ c ∈ q.toList, isPyWs c = true)
    (c : Char) (hcw : c ∈ w.toList) (hc : isPyWs c = false) :
    pyContains w q = false := by
  by_contra hb
  rw [Bool.not_eq_false] at hb
  have hinf : w.toList <:+: q.toList := of_decide_eq_true hb
  have ht := hws c (hinf.subset hcw)
  rw [ht] at hc
  simp at hc

theorem lowerChar_of_ws {c : Char} (h : isPyWs c = true) : lowerChar c = c := by
  unfold isPyWs at h
  simp only [Bool.or_eq_true, beq_iff_eq] at h
  rcases h with ((((rfl | rfl) | rfl) | rfl) | rfl) | rfl <;> decide

theorem ws_pyLower {q : String} (h : ∀ c ∈ q.toList, isPyWs c = true) :
    ∀ c ∈ (pyLower q).toList, isPyWs c = true := by
  intro c hc
  have hc' : c ∈ q.toList.map lowerChar := hc
  rcases List.mem_map.mp hc' with ⟨c0, hc0, rfl⟩
  have h0 := h c0 hc0
  rw [lowerChar_of_ws h0]
  exact h0

theorem should_use_rag_ws {q : String} (h : ∀ c ∈ q.toList, isPyWs c = true) :
    should_use_rag q = false := by
  have h1 : NON_RAG_PREFIXES.any (fun p => pyStartsWith p q) = false := by
    simp only [NON_RAG_PREFIXES, List.any_cons, List.any_nil,
      Bool.or_false, Bool.or_eq_false_iff]
    exact ⟨ws_no_startsWith h 'w' (by decide) (by decide),
           ws_no_startsWith h 'w' (by decide) (by decide),
           ws_no_startsWith h 'd' (by decide) (by decide),
           ws_no_startsWith h 'm' (by decide) (by decide),
           ws_no_startsWith h 'i' (by decide) (by decide),
           ws_no_startsWith h 'e' (by decide) (by decide)⟩
  have h2 : MEDICAL_KEYWORDS.any (fun w => pyContains w q) = false := by
    simp only [MEDICAL_KEYWORDS, List.any_cons, List.any_nil,
      Bool.or_false, Bool.or_eq_false_iff]
    exact ⟨ws_no_contains h 's' (by decide) (by decide),
           ws_no_contains h 'd' (by decide) (by decide),
           ws_no_contains h 't' (by decide) (by decide),
           ws_no_contains h 'f' (by decide) (by decide),
           ws_no_contains h 'v' (by decide) (by decide),
           ws_no_contains h 'd' (by decide) (by decide),
           ws_no_contains h 's' (by decide) (by decide),
           ws_no_contains h 'i' (by decide) (by decide),
           ws_no_contains h 'b' (by decide) (by decide),
           ws_no_contains h 'p' (by decide) (by decide)⟩
  simp [should_use_rag, h1, h2]

theorem ep_strategy (s : WFState) :
    (engineer_prompt_node s).strategy = s.strategy := rfl

theorem ep_docs (s : WFState) :
    (engineer_prompt_node s).retrieved_docs = s.retrieved_docs := rfl

theorem ep_context (s : WFState) :
    (engineer_prompt_node s).context = s.context := rfl

theorem mi_strategy (env : Env) (s : WFState) :
    (run_model_inference_node env s).1.strategy = s.strategy := by
  unfold run_model_inference_node run_inference
  rcases h : env.completion with m | res <;> simp [h]

theorem mi_docs (env : Env) (s : WFState) :
    (run_model_inference_node env s).1.retrieved_docs = s.retrieved_docs := by
  unfold run_model_inference_node run_inference
  rcases h : env.completion with m | res <;> simp [h]

theorem mi_context (env : Env) (s : WFState) :
    (run_model_inference_node env s).1.context = s.context := by
  unfold run_model_inference_node run_inference
  rcases h : env.completion with m | res <;> simp [h]

theorem mi_count (env : Env) (s : WFState) :
    (run_model_inference_node env s).2 = 1 := by
  unfold run_model_inference_node run_inference
  rcases h : env.completion with m | res <;> simp [h]

theorem vr_strategy (env : Env) (s : WFState) :
    (validate_response_node env s).strategy = s.strategy := by
  unfold validate_response_node validate_response_spec
  rcases h : env.validatorResult with m | t <;> simp [h]

theorem vr_docs (env : Env) (s : WFState) :
    (validate_response_node env s).retrieved_docs = s.retrieved_docs := by
  unfold validate_response_node validate_response_spec
  rcases h : env.validatorResult with m | t <;> simp [h]

theorem vr_context (env : Env) (s : WFState) :
    (validate_response_node env s).context = s.context := by
  unfold validate_response_node validate_response_spec
  rcases h : env.validatorResult with m | t <;> simp [h]

theorem li_strategy (env : Env) (s : WFState) :
    (log_interaction_node env s).strategy = s.strategy := by
  unfold log_interaction_node log_interaction_spec
  rcases h : env.logOutcome with m | u <;> simp [h]

theorem li_docs (env : Env) (s : WFState) :
    (log_interaction_node env s).retrieved_docs = s.retrieved_docs := by
  unfold log_interaction_node log_interaction_spec
  rcases h : env.logOutcome with m | u <;> simp [h]

theorem li_context (env : Env) (s : WFState) :
    (log_interaction_node env s).context = s.context := by
  unfold log_interaction_node log_interaction_spec
  rcases h : env.logOutcome with m | u <;> simp [h]

theorem ft_strategy (env : Env) (s : WFState) :
    (check_fine_tuning_trigger_node env s).strategy = s.strategy := by
  unfold check_fine_tuning_trigger_node check_fine_tuning_trigger_spec
  rcases h : env.ftOutcome with m | u <;> simp [h]

theorem ft_docs (env : Env) (s : WFState) :
    (check_fine_tuning_trigger_node env s).retrieved_docs = s.retrieved_docs := by
  unfold check_fine_tuning_trigger_node check_fine_tuning_trigger_spec
  rcases h : env.ftOutcome with m | u <;> simp [h]

theorem ft_context (env : Env) (s : WFState) :
    (check_fine_tuning_trigger_node env s).context = s.context := by
  unfold check_fine_tuning_trigger_node check_fine_tuning_trigger_spec
  rcases h : env.ftOutcome with m | u <;> simp [h]

theorem tailStages_strategy (env : Env) (s : WFState) :
    (tailStages env s).1.strategy = s.strategy := by
  simp [tailStages, ft_strategy, li_strategy, vr_strategy, mi_strategy, ep_strategy]

theorem tailStages_docs (env : Env) (s : WFState) :
    (tailStages env s).1.retrieved_docs = s.retrieved_docs := by
  simp [tailStages, ft_docs, li_docs, vr_docs, mi_docs, ep_docs]

theorem tailStages_context (env : Env) (s : WFState) :
    (tailStages env s).1.context = s.context := by
  simp [tailStages, ft_context, li_context, vr_context, mi_context, ep_context]

theorem tailStages_count (env : Env) (s : WFState) :
    (tailStages env s).2 = 1 := by
  simp [tailStages, mi_count]

theorem tailStages_final_output (env : Env) (s : WFState) :
    (tailStages env s).1.final_output
      = some ((tailStages env s).1.validated_response.getD
          ((tailStages env s).1.raw_response.getD "")) := by
  unfold tailStages check_fine_tuning_trigger_node check_fine_tuning_trigger_spec
  rcases h : env.ftOutcome with m | u <;> simp [h]

theorem input_docs (now : Rat) (s : WFState) :
    (input_processing_node now s).retrieved_docs = s.retrieved_docs := by
  unfold input_processing_node finishInput
  split
  · rfl
  · split <;> rfl

theorem input_context (now : Rat) (s : WFState) :
    (input_processing_node now s).context = s.context := by
  unfold input_processing_node finishInput
  split
  · rfl
  · split <;> rfl

theorem initialState_docs (input : String) :
    (initialState input).retrieved_docs = none := rfl

theorem initialState_context (input : String) :
    (initialState input).context = none := rfl

theorem router_docs (s : WFState) :
    (decision_router_node s).retrieved_docs = s.retrieved_docs := rfl

theorem router_context (s : WFState) :
    (decision_router_node s).context = s.context := rfl

theorem router_strategy (s : WFState) :
    (decision_router_node s).strategy = some "error" := rfl

theorem router_use_rag (s : WFState) :
    (decision_router_node s).use_rag = s.use_rag := rfl

theorem input_use_rag (now : Rat) (s : WFState) :
    (input_processing_node now s).use_rag = s.use_rag := by
  unfold input_processing_node finishInput
  split
  · rfl
  · split <;> rfl

theorem rag_strategy (env : Env) (s : WFState) :
    (rag_retrieval_node env s).1.strategy = s.strategy := by
  unfold rag_retrieval_node
  split
  · rfl
  · split
    · rfl
    · rcases h : env.retrieval with m | docs
      · rcases h2 : s.error with _ | es <;> simp [h, h2]
      · simp [h]

theorem rag_count_unavailable (env : Env) (s : WFState)
    (henv : env.ragAvailable = false) :
    (rag_retrieval_node env s).2 = 0 := by
  unfold rag_retrieval_node
  split
  · rfl
  · rw [henv]
    rfl

theorem rag_retrieval_unavailable (env : Env) (s : WFState)
    (henv : env.ragAvailable = false) (hu : s.use_rag.getD false = true) :
    rag_retrieval_node env s
      = ({ s with context := some "", retrieved_docs := some [] }, 0) := by
  unfold rag_retrieval_node
  rw [hu, henv]
  rfl

theorem input_query (now : Rat) (s : WFState) :
    (input_processing_node now s).query = s.query ∨
    (input_processing_node now s).query = some (pySlice 2000 (s.query.getD "")) := by
  unfold input_processing_node finishInput
  split
  · exact Or.inl rfl
  · split
    · exact Or.inr rfl
    · exact Or.inl rfl

/-!  Claim theorems. -/

/-- Claim C1 (corrected).  On an empty or whitespace-only query the workflow
does terminate with strategy `"error"` (set by `input_processing` and set
again by `decision_router`'s always-taken except branch) and the vector
store is never fetched (`RAG_AVAILABLE` is false on every run of this
snapshot, so `rag_retrieval_node`'s unavailable branch performs no fetch
even when the edge routes into it) — but the model-inference stage still
runs and makes its one completion-provider attempt. -/
theorem C1_amended (env : Env) (s0 : WFState)
    (h : pyStrip (s0.query.getD "") = "") (henv : env.ragAvailable = false) :
    (runCompleteWorkflow env s0).1.strategy = some "error" ∧
    (runCompleteWorkflow env s0).2.1 = 0 ∧
    (runCompleteWorkflow env s0).2.2 = 1 := by
  simp only [runCompleteWorkflow]
  cases hr : routeUseRag (decision_router_node (input_processing_node env.now s0)) with
  | false =>
      simp [hr, tailStages_strategy, tailStages_count, router_strategy]
  | true =>
      simp [hr, tailStages_strategy, tailStages_count, rag_strategy,
        router_strategy, rag_count_unavailable, henv]

/-- Claim C1, counterexample: on the concrete empty query in the snapshot
environment the final strategy is `"error"` and no fetch happens, but the
completion provider is attempted once, so the claimed conjunction (which
includes that inference is never invoked) fails. -/
theorem C1_counterexample :
    ¬ ((runCompleteWorkflow envSnap (initialState "")).1.strategy = some "error" ∧
       (runCompleteWorkflow envSnap (initialState "")).2.1 = 0 ∧
       (runCompleteWorkflow envSnap (initialState "")).2.2 = 0) := by
  decide

/-- Claim C1, witness for the amended theorem at the whitespace query. -/
theorem C1_witness :
    pyStrip ((initialState " ").query.getD "") = "" ∧
    envSnap.ragAvailable = false ∧
    ((runCompleteWorkflow envSnap (initialState " ")).1.strategy = some "error" ∧
     (runCompleteWorkflow envSnap (initialState " ")).2.1 = 0 ∧
     (runCompleteWorkflow envSnap (initialState " ")).2.2 = 1) :=
  ⟨by decide, rfl, C1_amended envSnap (initialState " ") (by decide) rfl⟩

/-- Claim C2 (confirmed).  `should_use_rag` equals the claim's
characterisation on every query: false whenever an excluded prefix matches
(regardless of keywords), true exactly when no excluded prefix matches and
some medical keyword occurs. -/
theorem C2_prefix_keyword_semantics (q : String) :
    should_use_rag q = should_use_rag_claim q := by
  unfold should_use_rag should_use_rag_claim
  rcases hp : NON_RAG_PREFIXES.any (fun p => pyStartsWith p q) <;>
    rcases hk : MEDICAL_KEYWORDS.any (fun w => pyContains w q) <;>
      simp [hp, hk]

/-- Claim C3 (confirmed).  A non-whitespace query longer than 2000 characters
is replaced by exactly its first 2000 characters, the truncation error is
recorded, and this stage leaves the strategy untouched. -/
theorem C3_truncation (now : Rat) (s : WFState)
    (h1 : pyStrip (s.query.getD "") ≠ "")
    (h2 : (s.query.getD "").length > 2000) :
    (input_processing_node now s).query = some (pySlice 2000 (s.query.getD "")) ∧
    (pySlice 2000 (s.query.getD "")).length = 2000 ∧
    (input_processing_node now s).error = some ["Query too long"] ∧
    (input_processing_node now s).strategy = s.strategy := by
  unfold input_processing_node finishInput
  rw [if_neg h1, if_pos h2]
  refine ⟨rfl, ?_, rfl, rfl⟩
  have hmk : (pySlice 2000 (s.query.getD "")).length
      = ((s.query.getD "").toList.take 2000).length := rfl
  have hlen : (s.query.getD "").toList.length = (s.query.getD "").length := rfl
  rw [hmk, List.length_take]
  omega

/-- Claim C3, witness at a 2001-character query.  (The two hypotheses are
discharged by explicit terms rather than evaluation: the query is a
2001-element replicate.) -/
theorem C3_witness :
    pyStrip (s2001.query.getD "") ≠ "" ∧
    (s2001.query.getD "").length > 2000 ∧
    ((input_processing_node 0 s2001).query = some (pySlice 2000 (s2001.query.getD "")) ∧
     (pySlice 2000 (s2001.query.getD "")).length = 2000 ∧
     (input_processing_node 0 s2001).error = some ["Query too long"] ∧
     (input_processing_node 0 s2001).strategy = s2001.strategy) := by
  have hmem : 'x' ∈ (s2001.query.getD "").toList := by
    rw [show (s2001.query.getD "").toList = List.replicate 2001 'x' from rfl]
    exact List.mem_replicate.mpr ⟨by omega, rfl⟩
  have h1 : pyStrip (s2001.query.getD "") ≠ "" := by
    intro hcontra
    exact absurd (pyStrip_eq_empty hcontra 'x' hmem) (by decide)
  have h2 : (s2001.query.getD "").length > 2000 := by
    have : (s2001.query.getD "").length = (List.replicate 2001 'x').length := rfl
    rw [this, List.length_replicate]
    omega
  exact ⟨h1, h2, C3_truncation 0 s2001 h1 h2⟩

/-- Claim C4 (confirmed).  In this snapshot every request skips retrieval:
the router's except branch leaves `use_rag` at the initial `True`, the edge
routes into `rag_retrieval_node`, and its `RAG_AVAILABLE`-false branch
(nodes.py lines 154-158) performs no fetch and sets `retrieved_docs = []`
and `context = ""`.  The final state of every request therefore carries the
empty list and the empty string — a fortiori for every request whose routing
decision is "no retrieval". -/
theorem C4_no_retrieval_empty (env : Env) (input : String)
    (henv : env.ragAvailable = false) :
    (runCompleteWorkflow env (initialState input)).1.retrieved_docs = some [] ∧
    (runCompleteWorkflow env (initialState input)).1.context = some "" ∧
    (runCompleteWorkflow env (initialState input)).2.1 = 0 := by
  have hu : (decision_router_node (input_processing_node env.now (initialState input))).use_rag.getD false
      = true := by
    rw [router_use_rag, input_use_rag]
    rfl
  have hroute : routeUseRag
      (decision_router_node (input_processing_node env.now (initialState input))) = true := hu
  have hrag := rag_retrieval_unavailable env
    (decision_router_node (input_processing_node env.now (initialState input))) henv hu
  simp only [runCompleteWorkflow]
  simp [hroute, hrag, tailStages_docs, tailStages_context]

/-- Claim C4, witness on a concrete request in the snapshot environment. -/
theorem C4_witness :
    envSnap.ragAvailable = false ∧
    ((runCompleteWorkflow envSnap (initialState "hello there")).1.retrieved_docs = some [] ∧
     (runCompleteWorkflow envSnap (initialState "hello there")).1.context = some "" ∧
     (runCompleteWorkflow envSnap (initialState "hello there")).2.1 = 0) :=
  ⟨rfl, C4_no_retrieval_empty envSnap "hello there" rfl⟩

/-- Claim C5 (confirmed).  A successful retrieval of a non-empty document
list sets `context` to the documents' texts joined by the separator in
retrieval order and `retrieved_docs` to exactly that list. -/
theorem C5_context_join (env : Env) (s : WFState) (docs : List RetrievedDoc)
    (h1 : s.use_rag = some true) (h2 : env.ragAvailable = true)
    (h3 : env.retrieval = .ok docs) (h4 : docs ≠ []) :
    (rag_retrieval_node env s).1.context
      = some (String.intercalate "\n---\n" (docs.map (·.text))) ∧
    (rag_retrieval_node env s).1.retrieved_docs = some docs := by
  have h5 : docs.isEmpty = false := by
    cases docs with
    | nil => exact absurd rfl h4
    | cons a t => rfl
  simp [rag_retrieval_node, h1, h2, h3, h5]

/-- Claim C5, witness: two concrete documents joined in order. -/
theorem C5_witness :
    (rag_retrieval_node envC5 sC5).1.context = some "alpha\n---\nbeta" ∧
    (rag_retrieval_node envC5 sC5).1.retrieved_docs = some docsW := by
  have h := C5_context_join envC5 sC5 docsW rfl rfl rfl (by decide)
  refine ⟨?_, h.2⟩
  rw [h.1]
  decide

/-- Claim C6 (corrected).  When the completion provider fails, node 5
substitutes the fallback text echoing the query and the error, appends the
inference error, zeroes the cost, and makes exactly one provider attempt
(no retry) — but `response_tokens` is set to the whitespace word count of
the fallback text (`len(raw_response.split())`), which is nonzero, not the
zero the claim states. -/
theorem C6_fallback (env : Env) (s : WFState) (m : String) (es : List String)
    (h1 : env.completion = .error m) (h2 : s.error = some es) :
    (run_model_inference_node env s).1.raw_response
      = some (inference_fallback_text (s.query.getD "No query") m) ∧
    pyContains (s.query.getD "No query")
      (inference_fallback_text (s.query.getD "No query") m) = true ∧
    pyContains m (inference_fallback_text (s.query.getD "No query") m) = true ∧
    (run_model_inference_node env s).1.error
      = some (es ++ ["Model inference error: " ++ m]) ∧
    (run_model_inference_node env s).1.cost = some 0 ∧
    (run_model_inference_node env s).1.response_tokens
      = some (pySplit (inference_fallback_text (s.query.getD "No query") m)).length ∧
    (run_model_inference_node env s).2 = 1 := by
  have hq : pyContains (s.query.getD "No query")
      (inference_fallback_text (s.query.getD "No query") m) = true := by
    apply decide_eq_true
    refine ⟨"I received your query: ".data,
      ". However, I encountered an error processing it: ".data ++ m.data, ?_⟩
    show "I received your query: ".data ++ (s.query.getD "No query").data
        ++ (". However, I encountered an error processing it: ".data ++ m.data)
      = (inference_fallback_text (s.query.getD "No query") m).data
    simp [inference_fallback_text, String.data_append, List.append_assoc]
  have hm : pyContains m
      (inference_fallback_text (s.query.getD "No query") m) = true := by
    apply decide_eq_true
    refine ⟨"I received your query: ".data ++ (s.query.getD "No query").data
      ++ ". However, I encountered an error processing it: ".data, [], ?_⟩
    simp [inference_fallback_text, String.data_append, List.append_assoc]
  refine ⟨?_, hq, hm, ?_, ?_, ?_, ?_⟩ <;>
    simp [run_model_inference_node, run_inference, h1, h2]

/-- Claim C6, counterexample: at a concrete failing provider call the
fallback's token count is 13, not the claimed 0 (while the cost is indeed
zeroed). -/
theorem C6_counterexample :
    (run_model_inference_node env6 sC5).1.response_tokens = some 13 ∧
    (run_model_inference_node env6 sC5).1.response_tokens ≠ some 0 ∧
    (run_model_inference_node env6 sC5).1.cost = some 0 := by
  decide

/-- Claim C6, witness for the amended theorem at a concrete failing call. -/
theorem C6_witness :
    env6.completion = Except.error "boom" ∧
    sC5.error = some [] ∧
    ((run_model_inference_node env6 sC5).1.error
       = some ([] ++ ["Model inference error: " ++ "boom"]) ∧
     (run_model_inference_node env6 sC5).1.cost = some 0 ∧
     (run_model_inference_node env6 sC5).2 = 1) := by
  have h := C6_fallback env6 sC5 "boom" [] rfl rfl
  exact ⟨rfl, rfl, h.2.2.2.1, h.2.2.2.2.1, h.2.2.2.2.2.2⟩

/-- Claim C7 (corrected).  The fine-tuning-check stage does always set
`final_output` (to the validated response, falling back to the raw
response), but the HTTP boundary does not read it:
`ChatbotPipeline._extract_response` searches only the key
`"validated_response"` and falls back to the literal
`"No response generated"`.  The reply coincides with `final_output` exactly
when the validated response is a non-empty string. -/
theorem C7_amended (env : Env) (s0 : WFState) :
    (runCompleteWorkflow env s0).1.final_output
      = some ((runCompleteWorkflow env s0).1.validated_response.getD
          ((runCompleteWorkflow env s0).1.raw_response.getD "")) ∧
    (∀ v, (runCompleteWorkflow env s0).1.validated_response = some v → v ≠ "" →
      extract_response (runCompleteWorkflow env s0).1 = v ∧
      (runCompleteWorkflow env s0).1.final_output = some v) := by
  have hfo : (runCompleteWorkflow env s0).1.final_output
      = some ((runCompleteWorkflow env s0).1.validated_response.getD
          ((runCompleteWorkflow env s0).1.raw_response.getD "")) := by
    simp only [runCompleteWorkflow]
    exact tailStages_final_output env _
  refine ⟨hfo, ?_⟩
  intro v hv hne
  constructor
  · unfold extract_response
    rw [hv]
    simp [hne]
  · rw [hfo, hv]
    rfl

/-- Claim C7, counterexample: a run whose validator succeeds with the empty
string ends with `final_output = some ""` while the HTTP boundary replies
`"No response generated"`, so the reply is not the `final_output` value. -/
theorem C7_counterexample :
    (runCompleteWorkflow env7 (initialState "hi")).1.final_output = some "" ∧
    extract_response (runCompleteWorkflow env7 (initialState "hi")).1
      = "No response generated" := by
  decide

/-- Claim C7, witness for the amended theorem on a benign run. -/
theorem C7_witness :
    extract_response (runCompleteWorkflow env0 (initialState "hi")).1 = "fine" ∧
    (runCompleteWorkflow env0 (initialState "hi")).1.final_output = some "fine" :=
  (C7_amended env0 (initialState "hi")).2 "fine" (by decide) (by decide)

/-- Claim C8 (corrected).  A whitespace-only (but non-empty) message is
rejected inside the handler with 400 and detail "Please enter a message",
and the workflow is not invoked — but the literal empty string never reaches
the handler: pydantic's `min_length=1` on `ChatRequest.message` rejects it
with a 422 validation error (workflow equally not invoked). -/
theorem C8_empty_message (env : Env) (msg : String)
    (h : pyStrip msg = "") :
    (msg = "" → chat env true msg = (ChatOutcome.validationError 422, false)) ∧
    (msg ≠ "" → msg.length ≤ 5000 →
      chat env true msg = (ChatOutcome.httpError 400 "Please enter a message", false)) := by
  constructor
  · intro he
    subst he
    unfold chat
    rw [if_pos (by decide : ("" : String).length < 1 ∨ ("" : String).length > 5000)]
  · intro hne hlen
    have hpos : 1 ≤ msg.length := by
      rcases msg with ⟨l⟩
      cases l with
      | nil => exact absurd rfl hne
      | cons a t => simp [String.length]
    have hcond : ¬ (msg.length < 1 ∨ msg.length > 5000) := by omega
    unfold chat
    rw [if_neg hcond, if_pos h]

/-- Claim C8, counterexample: the empty message yields a 422 request
validation error, not the claimed 400. -/
theorem C8_counterexample :
    (chat env0 true "").1 = ChatOutcome.validationError 422 ∧
    (chat env0 true "").1 ≠ ChatOutcome.httpError 400 "Please enter a message" ∧
    (chat env0 true "").2 = false := by
  decide

/-- Claim C8, witness for the amended theorem at a one-space message. -/
theorem C8_witness :
    pyStrip " " = "" ∧
    chat env0 true " " = (ChatOutcome.httpError 400 "Please enter a message", false) :=
  ⟨by decide, (C8_empty_message env0 " " (by decide)).2 (by decide) (by decide)⟩

/-- Claim C9 (confirmed).  On a non-empty, non-whitespace query, node 1
always leaves the error field bound to a list (`isSome`) and the fallback
flag set to false, which is what keeps the list-append in node 3's failure
branch well-defined. -/
theorem C9_error_initialized (now : Rat) (s : WFState)
    (h : pyStrip (s.query.getD "") ≠ "") :
    ((input_processing_node now s).error).isSome = true ∧
    (input_processing_node now s).fallback_used = some false := by
  unfold input_processing_node finishInput
  rw [if_neg h]
  exact ⟨rfl, rfl⟩

/-- Claim C9, witness at a concrete ordinary query. -/
theorem C9_witness :
    pyStrip ((initialState "hello").query.getD "") ≠ "" ∧
    (((input_processing_node 0 (initialState "hello")).error).isSome = true ∧
     (input_processing_node 0 (initialState "hello")).fallback_used = some false) :=
  ⟨by decide, C9_error_initialized 0 (initialState "hello") (by decide)⟩

/-- Claim C10 (code_bug).  The claim describes the try-body of
`decision_router_node` (lowercase the query, then evaluate
`should_use_rag`), which is clearly the intent (spec sections 4.8 and 4.1 and
nodes.py lines 96-101) — but that code never executes: `should_use_rag` is
unbound in nodes.py because `rag_pipline.py` imports the nonexistent name
`retrieve_context` from the present `retriever.py` (which only defines the
misspelled method `retrive_context`), so every call raises `NameError` and
the except branch runs.  Evaluating the code at the failing input: `use_rag`
is never written (it stays absent) and strategy becomes `"error"`, even
though the pure predicate on the lowered query would have returned true;
`should_use_rag` itself is case-sensitive exactly as the claim notes (false
on "SKIN"). -/
theorem C10_router_never_computes :
    (decision_router_node ({ query := some "skin" } : WFState)).use_rag = none ∧
    (decision_router_node ({ query := some "skin" } : WFState)).strategy = some "error" ∧
    (decision_router_node ({ query := some "SKIN" } : WFState)).use_rag = none ∧
    should_use_rag (pyLower "skin") = true ∧
    should_use_rag "SKIN" = false := by
  decide

end AIChat
